import Mathlib

/-!
Verification of the live interview session manager (useLiveInterview hook).

The mutable React state and refs of the hook are embedded as one record
(SessionState); the event handlers (disconnect, connect, onopen, onmessage,
onclose, onerror) become pure state-transition functions.  Clock reads
(ctx.currentTime, Date.now()) are passed as explicit parameters.  Two ghost
logs instrument the model: scheduleLog records every playback unit in the
order source.start was called, stopLog records every unit on which stop()
was called; sessionsOpened counts calls to ai.live.connect.
-/

/-- ConnectionState enum from types.ts. -/
inductive ConnectionState
  | DISCONNECTED
  | CONNECTING
  | CONNECTED
  | ERROR
deriving DecidableEq

/-- TranscriptItem.role: the remote (model) side is tagged ai in the code. -/
inductive Role
  | user
  | ai
deriving DecidableEq

/-- TranscriptItem from types.ts: immutable {role, text, timestamp}. -/
structure TranscriptItem where
  role : Role
  text : String
  timestamp : Nat
deriving DecidableEq

/-- A scheduled playback unit: an AudioBufferSourceNode together with the
start time passed to source.start and the duration of its buffer (ℚ seconds). -/
structure PlaybackUnit where
  startAt : ℚ
  duration : ℚ
deriving DecidableEq

/-- The state and refs of the hook.  Boolean fields model whether the
corresponding ref currently holds a live resource.  scheduleLog, stopLog and
sessionsOpened are ghost instrumentation (append-only history). -/
structure SessionState where
  connectionState : ConnectionState
  error : Option String
  volume : ℚ
  aiVolume : ℚ
  transcript : List TranscriptItem
  currentInput : String
  currentOutput : String
  nextStartTime : ℚ
  scheduledSources : List PlaybackUnit
  sessionLive : Bool
  inputAudioContextOpen : Bool
  outputAudioContextOpen : Bool
  mediaStreamRef : Bool
  mediaTracksLive : Bool
  inputSourceRef : Bool
  processorRef : Bool
  aiVolumeIntervalActive : Bool
  scheduleLog : List PlaybackUnit
  stopLog : List PlaybackUnit
  sessionsOpened : Nat
deriving DecidableEq

/-- Initial hook state: DISCONNECTED, no error, empty transcript, all refs
null, cursor 0. -/
def initialState : SessionState where
  connectionState := ConnectionState.DISCONNECTED
  error := none
  volume := 0
  aiVolume := 0
  transcript := []
  currentInput := ""
  currentOutput := ""
  nextStartTime := 0
  scheduledSources := []
  sessionLive := false
  inputAudioContextOpen := false
  outputAudioContextOpen := false
  mediaStreamRef := false
  mediaTracksLive := false
  inputSourceRef := false
  processorRef := false
  aiVolumeIntervalActive := false
  scheduleLog := []
  stopLog := []
  sessionsOpened := 0

/-- disconnect (part_000 lines 47-98): clear the volume interval, tear down
the input graph, stop and clear all scheduled sources, reset the cursor,
close the output context, stop media tracks, drop the session promise, set
DISCONNECTED and zero both volume readouts.  It does not touch error,
transcript, or the accumulators. -/
def disconnect (s : SessionState) : SessionState :=
  { s with
    aiVolumeIntervalActive := false
    processorRef := false
    inputSourceRef := false
    inputAudioContextOpen := false
    stopLog := s.stopLog ++ s.scheduledSources
    scheduledSources := []
    nextStartTime := 0
    outputAudioContextOpen := false
    mediaTracksLive := false
    mediaStreamRef := false
    sessionLive := false
    connectionState := ConnectionState.DISCONNECTED
    volume := 0
    aiVolume := 0 }

/-- An inbound audio payload: decodeAudioData either yields a buffer of the
given duration or throws (malformed base64 / PCM). -/
inductive AudioChunk
  | ok (duration : ℚ)
  | malformed
deriving DecidableEq

/-- The fields of a LiveServerMessage.serverContent the handler reads. -/
structure ServerMessage where
  audio : Option AudioChunk
  interrupted : Bool
  inputTranscription : Option String
  outputTranscription : Option String
  turnComplete : Bool
deriving DecidableEq

/-- onmessage step 1 (lines 259-295): if an audio payload is present and the
output context is live, clamp the cursor to max(nextStartTime, currentTime);
then try to decode — on success start a source at the cursor, add it to the
live set, and advance the cursor by the buffer duration; on decode failure
only log the error (the clamp has already happened). -/
def handleAudio (s : SessionState) (chunk : Option AudioChunk) (now : ℚ) :
    SessionState :=
  match chunk with
  | none => s
  | some c =>
    if s.outputAudioContextOpen then
      let s1 := { s with nextStartTime := max s.nextStartTime now }
      match c with
      | AudioChunk.malformed => s1
      | AudioChunk.ok d =>
        let u : PlaybackUnit := { startAt := s1.nextStartTime, duration := d }
        { s1 with
          scheduledSources := s1.scheduledSources ++ [u]
          scheduleLog := s1.scheduleLog ++ [u]
          nextStartTime := s1.nextStartTime + d }
    else s

/-- onmessage step 2 (lines 297-302): on interrupted, stop every scheduled
source, clear the set, and reset the cursor to 0. -/
def handleInterrupt (s : SessionState) (flag : Bool) : SessionState :=
  if flag then
    { s with
      stopLog := s.stopLog ++ s.scheduledSources
      scheduledSources := []
      nextStartTime := 0 }
  else s

/-- onmessage step 3 (lines 304-310): append transcription fragments to the
per-speaker accumulators in arrival order. -/
def handleTranscription (s : SessionState) (inp outp : Option String) :
    SessionState :=
  let s1 :=
    match inp with
    | some t => { s with currentInput := s.currentInput ++ t }
    | none => s
  match outp with
  | some t => { s1 with currentOutput := s1.currentOutput ++ t }
  | none => s1

/-- JS String.prototype.trim: strip leading and trailing whitespace. -/
def jsTrim (s : String) : String :=
  { data := ((s.data.dropWhile Char.isWhitespace).reverse.dropWhile
      Char.isWhitespace).reverse }

/-- onmessage step 4 (lines 312-327): on turnComplete, trim both
accumulators; if either is non-empty append the user item (if non-empty)
then the ai item (if non-empty) to the transcript, each stamped Date.now();
then reset both accumulators unconditionally. -/
def handleTurnComplete (s : SessionState) (flag : Bool) (ts : Nat) :
    SessionState :=
  if flag then
    let userText := jsTrim s.currentInput
    let aiText := jsTrim s.currentOutput
    let s1 :=
      if userText ≠ "" ∨ aiText ≠ "" then
        { s with transcript := s.transcript
            ++ (if userText ≠ "" then
                  [{ role := Role.user, text := userText, timestamp := ts }]
                else [])
            ++ (if aiText ≠ "" then
                  [{ role := Role.ai, text := aiText, timestamp := ts }]
                else []) }
      else s
    { s1 with currentInput := "", currentOutput := "" }
  else s

/-- The full inbound-message handler (lines 257-328), steps in source
order: audio, interruption, transcription, turn completion.  now models
ctx.currentTime at the clamp, ts models Date.now() at the commit. -/
def onmessage (s : SessionState) (msg : ServerMessage) (now : ℚ) (ts : Nat) :
    SessionState :=
  handleTurnComplete
    (handleTranscription
      (handleInterrupt (handleAudio s msg.audio now) msg.interrupted)
      msg.inputTranscription msg.outputTranscription)
    msg.turnComplete ts

/-- onclose (lines 329-338): functional state update — move to DISCONNECTED
only if the state at arrival is CONNECTED or CONNECTING, else keep it. -/
def onclose (s : SessionState) : SessionState :=
  { s with connectionState :=
      if s.connectionState = ConnectionState.CONNECTED ∨
         s.connectionState = ConnectionState.CONNECTING then
        ConnectionState.DISCONNECTED
      else s.connectionState }

/-- onerror (lines 339-344): surface err.message (or a default when absent
or empty, per JS truthiness) and move to ERROR. -/
def onerror (s : SessionState) (emsg : Option String) : SessionState :=
  let m :=
    match emsg with
    | some t => if t = "" then "Connection error occurred" else t
    | none => "Connection error occurred"
  { s with error := some m, connectionState := ConnectionState.ERROR }

/-- onopen (lines 217-256): set CONNECTED; if the input context and media
stream are still live, build and wire the capture source and processor. -/
def onopen (s : SessionState) : SessionState :=
  let s1 := { s with connectionState := ConnectionState.CONNECTED }
  if s1.inputAudioContextOpen ∧ s1.mediaStreamRef then
    { s1 with inputSourceRef := true, processorRef := true }
  else s1

/-- Environment outcomes of one connect() attempt: API key present?,
getUserMedia result, session-open result, with failure messages. -/
structure ConnectEnv where
  apiKeyPresent : Bool
  mediaOk : Bool
  mediaErr : String
  sessionOk : Bool
  sessionErr : String
deriving DecidableEq

/-- The catch block of connect (lines 353-360): set the error message (with JS
falsy-default), set ERROR, then stop media tracks if the stream ref is set.
The stream ref itself, the audio contexts and the volume interval are left
as they are. -/
def connectFail (s : SessionState) (emsg : String) : SessionState :=
  let m := if emsg = "" then "Failed to connect to Gemini Live API" else emsg
  let s1 := { s with error := some m,
                     connectionState := ConnectionState.ERROR }
  if s1.mediaStreamRef then { s1 with mediaTracksLive := false } else s1

/-- connect (lines 100-361): guard against CONNECTED/CONNECTING; then set
CONNECTING, clear error, transcript and accumulators; check the API key;
create both audio contexts and start the aiVolume polling interval; acquire
the media stream; open the remote session (counted in sessionsOpened) and
await it.  Any failure lands in connectFail.  CONNECTED is only set later by
the onopen callback. -/
def connect (s : SessionState) (env : ConnectEnv) : SessionState :=
  if s.connectionState = ConnectionState.CONNECTED ∨
     s.connectionState = ConnectionState.CONNECTING then s
  else
    let s1 := { s with connectionState := ConnectionState.CONNECTING
                       error := none
                       transcript := []
                       currentInput := ""
                       currentOutput := "" }
    if ¬ env.apiKeyPresent then
      connectFail s1 "API Key not found in environment."
    else
      let s2 := { s1 with inputAudioContextOpen := true
                          outputAudioContextOpen := true
                          aiVolumeIntervalActive := true }
      if ¬ env.mediaOk then connectFail s2 env.mediaErr
      else
        let s3 := { s2 with mediaStreamRef := true, mediaTracksLive := true }
        let s4 := { s3 with sessionLive := true
                            sessionsOpened := s3.sessionsOpened + 1 }
        if ¬ env.sessionOk then connectFail s4 env.sessionErr
        else s4

/-- A message carrying only an audio chunk. -/
def audioMsg (c : AudioChunk) : ServerMessage :=
  { audio := some c, interrupted := false, inputTranscription := none,
    outputTranscription := none, turnComplete := false }

/-- A message carrying only the interrupted marker. -/
def interruptMsg : ServerMessage :=
  { audio := none, interrupted := true, inputTranscription := none,
    outputTranscription := none, turnComplete := false }

/-- A message carrying only the turn-complete marker. -/
def turnCompleteMsg : ServerMessage :=
  { audio := none, interrupted := false, inputTranscription := none,
    outputTranscription := none, turnComplete := true }

/-- A message carrying an audio chunk together with the interrupted flag. -/
def audioAndInterruptMsg (d : ℚ) : ServerMessage :=
  { audio := some (AudioChunk.ok d), interrupted := true,
    inputTranscription := none, outputTranscription := none,
    turnComplete := false }

/-- Feed a list of (arrival clock time, decoded duration) audio chunks
through the message handler in order. -/
def runChunks (s : SessionState) (chunks : List (ℚ × ℚ)) : SessionState :=
  chunks.foldl
    (fun st p => onmessage st (audioMsg (AudioChunk.ok p.2)) p.1 0) s

/-- Consecutive units abut or are separated: the start of each unit plus its
duration is at most the start of the next unit (no overlap). -/
def unitsChained : List PlaybackUnit → Bool
  | [] => true
  | [_] => true
  | u :: v :: rest =>
      decide (u.startAt + u.duration ≤ v.startAt) && unitsChained (v :: rest)

/-- Start times are non-decreasing along the list. -/
def startsMono : List PlaybackUnit → Bool
  | [] => true
  | [_] => true
  | u :: v :: rest =>
      decide (u.startAt ≤ v.startAt) && startsMono (v :: rest)

/-- The all-success connect environment. -/
def okEnv : ConnectEnv :=
  { apiKeyPresent := true, mediaOk := true, mediaErr := "",
    sessionOk := true, sessionErr := "" }

/-- A freshly connected session: connect succeeded and onopen has fired. -/
def connectedState : SessionState := onopen (connect initialState okEnv)

/-- A message whose audio payload fails to decode. -/
def badAudioMsg : ServerMessage :=
  { audio := some AudioChunk.malformed, interrupted := false,
    inputTranscription := none, outputTranscription := none,
    turnComplete := false }

/-- The duration of each unit is non-negative and the unit ends no later than the
cursor value c. -/
def unitsBounded (c : ℚ) (l : List PlaybackUnit) : Prop :=
  ∀ u ∈ l, 0 ≤ u.duration ∧ u.startAt + u.duration ≤ c

theorem onmessage_audio_ok (s : SessionState) (d now : ℚ) (ts : Nat)
    (h : s.outputAudioContextOpen = true) :
    onmessage s (audioMsg (AudioChunk.ok d)) now ts =
    { s with
      nextStartTime := max s.nextStartTime now + d
      scheduledSources :=
        s.scheduledSources ++ [{ startAt := max s.nextStartTime now, duration := d }]
      scheduleLog :=
        s.scheduleLog ++ [{ startAt := max s.nextStartTime now, duration := d }] } := by
  simp [onmessage, audioMsg, handleAudio, handleInterrupt, handleTranscription,
    handleTurnComplete, h]

theorem onmessage_audio_malformed (s : SessionState) (now : ℚ) (ts : Nat) :
    onmessage s badAudioMsg now ts =
    if s.outputAudioContextOpen then
      { s with nextStartTime := max s.nextStartTime now }
    else s := by
  by_cases h : s.outputAudioContextOpen = true
  · simp [onmessage, badAudioMsg, handleAudio, handleInterrupt,
      handleTranscription, handleTurnComplete, h]
  · simp at h
    simp [onmessage, badAudioMsg, handleAudio, handleInterrupt,
      handleTranscription, handleTurnComplete, h]

theorem onmessage_interrupt (s : SessionState) (now : ℚ) (ts : Nat) :
    onmessage s interruptMsg now ts =
    { s with
      stopLog := s.stopLog ++ s.scheduledSources
      scheduledSources := []
      nextStartTime := 0 } := by
  simp [onmessage, interruptMsg, handleAudio, handleInterrupt,
    handleTranscription, handleTurnComplete]

theorem onmessage_turnComplete (s : SessionState) (now : ℚ) (ts : Nat) :
    onmessage s turnCompleteMsg now ts =
    handleTurnComplete s true ts := by
  simp [onmessage, turnCompleteMsg, handleAudio, handleInterrupt,
    handleTranscription]

theorem unitsChained_append (l : List PlaybackUnit) (u : PlaybackUnit)
    (hl : unitsChained l = true)
    (hb : ∀ v ∈ l, v.startAt + v.duration ≤ u.startAt) :
    unitsChained (l ++ [u]) = true := by
  induction l with
  | nil => simp [unitsChained]
  | cons a rest ih =>
    cases rest with
    | nil =>
      simp [unitsChained]
      exact hb a (by simp)
    | cons b rest2 =>
      simp only [unitsChained, Bool.and_eq_true, decide_eq_true_eq,
        List.cons_append] at hl ⊢
      refine ⟨hl.1, ?_⟩
      have := ih hl.2 (fun v hv => hb v (List.mem_cons_of_mem a hv))
      simpa [unitsChained, Bool.and_eq_true, decide_eq_true_eq] using this

theorem startsMono_append (l : List PlaybackUnit) (u : PlaybackUnit)
    (hl : startsMono l = true)
    (hb : ∀ v ∈ l, v.startAt ≤ u.startAt) :
    startsMono (l ++ [u]) = true := by
  induction l with
  | nil => simp [startsMono]
  | cons a rest ih =>
    cases rest with
    | nil =>
      simp [startsMono]
      exact hb a (by simp)
    | cons b rest2 =>
      simp only [startsMono, Bool.and_eq_true, decide_eq_true_eq,
        List.cons_append] at hl ⊢
      refine ⟨hl.1, ?_⟩
      have := ih hl.2 (fun v hv => hb v (List.mem_cons_of_mem a hv))
      simpa [startsMono, Bool.and_eq_true, decide_eq_true_eq] using this

theorem runChunks_cons (s : SessionState) (p : ℚ × ℚ) (rest : List (ℚ × ℚ)) :
    runChunks s (p :: rest) =
    runChunks (onmessage s (audioMsg (AudioChunk.ok p.2)) p.1 0) rest := by
  simp [runChunks]

theorem runChunks_inv (chunks : List (ℚ × ℚ)) (s : SessionState)
    (hctx : s.outputAudioContextOpen = true)
    (hdur : ∀ p ∈ chunks, 0 ≤ p.2)
    (hc : unitsChained s.scheduleLog = true)
    (hm : startsMono s.scheduleLog = true)
    (hb : unitsBounded s.nextStartTime s.scheduleLog) :
    unitsChained (runChunks s chunks).scheduleLog = true ∧
    startsMono (runChunks s chunks).scheduleLog = true := by
  induction chunks generalizing s with
  | nil => exact ⟨hc, hm⟩
  | cons p rest ih =>
    rw [runChunks_cons, onmessage_audio_ok s p.2 p.1 0 hctx]
    have hd : 0 ≤ p.2 := hdur p (by simp)
    have hnst : s.nextStartTime ≤ max s.nextStartTime p.1 := le_max_left _ _
    refine ih _ (by simp [hctx]) (fun q hq => hdur q (by simp [hq])) ?_ ?_ ?_
    · refine unitsChained_append _ _ hc (fun v hv => ?_)
      exact le_trans (hb v hv).2 hnst
    · refine startsMono_append _ _ hm (fun v hv => ?_)
      have h1 : v.startAt ≤ v.startAt + v.duration :=
        le_add_of_nonneg_right (hb v hv).1
      exact le_trans h1 (le_trans (hb v hv).2 hnst)
    · intro v hv
      simp only [List.mem_append, List.mem_singleton] at hv
      rcases hv with hv | rfl
      · refine ⟨(hb v hv).1, ?_⟩
        refine le_trans (hb v hv).2 (le_trans hnst ?_)
        exact le_add_of_nonneg_right hd
      · exact ⟨hd, le_refl _⟩

theorem connectedState_outputOpen : connectedState.outputAudioContextOpen = true := by
  decide

theorem connectedState_nextStart : connectedState.nextStartTime = 0 := by
  decide

theorem connectedState_scheduleLog : connectedState.scheduleLog = [] := by
  decide

theorem scenario_two_chunks :
    (runChunks connectedState [((0:ℚ),(1:ℚ)), ((1:ℚ),(1:ℚ)/2)]).scheduleLog =
    [{ startAt := 0, duration := 1 }, { startAt := 1, duration := 1/2 }] := by
  rw [runChunks_cons, onmessage_audio_ok _ _ _ _ connectedState_outputOpen]
  rw [runChunks_cons,
    onmessage_audio_ok _ _ _ _ (by simp [connectedState_outputOpen])]
  simp [runChunks, connectedState_nextStart, connectedState_scheduleLog]

/-- Claim C1: for every sequence of inbound audio chunks (arrival time,
duration) with non-negative durations fed to the inbound-message handler of
a state with a live output context and an empty schedule history, the
assigned start times are non-decreasing and each later unit starts no
earlier than the start of the previous unit plus its duration; and in the
concrete back-to-back scenario of a 1.0s then a 0.5s chunk, the second
second unit starts exactly 1.0s after the first. -/
theorem C1_gapless_scheduling (chunks : List (ℚ × ℚ)) (s : SessionState)
    (hctx : s.outputAudioContextOpen = true)
    (hdur : ∀ p ∈ chunks, 0 ≤ p.2)
    (hlog : s.scheduleLog = []) :
    (startsMono (runChunks s chunks).scheduleLog = true ∧
     unitsChained (runChunks s chunks).scheduleLog = true) ∧
    (runChunks connectedState [((0:ℚ),(1:ℚ)), ((1:ℚ),(1:ℚ)/2)]).scheduleLog =
      [{ startAt := 0, duration := 1 }, { startAt := 1, duration := 1/2 }] := by
  have h := runChunks_inv chunks s hctx hdur
    (by rw [hlog]; rfl) (by rw [hlog]; rfl)
    (by rw [hlog]; intro u hu; simp at hu)
  exact ⟨⟨h.2, h.1⟩, scenario_two_chunks⟩

/-- Witness for C1 at a concrete chunk sequence. -/
theorem C1_witness :
    (startsMono (runChunks connectedState
        [((0:ℚ),(2:ℚ)), ((3:ℚ),(1:ℚ))]).scheduleLog = true ∧
     unitsChained (runChunks connectedState
        [((0:ℚ),(2:ℚ)), ((3:ℚ),(1:ℚ))]).scheduleLog = true) ∧
    (runChunks connectedState [((0:ℚ),(1:ℚ)), ((1:ℚ),(1:ℚ)/2)]).scheduleLog =
      [{ startAt := 0, duration := 1 }, { startAt := 1, duration := 1/2 }] :=
  C1_gapless_scheduling [((0:ℚ),(2:ℚ)), ((3:ℚ),(1:ℚ))] connectedState
    (by decide) (by decide) (by decide)

/-- Claim C2: processing an interrupted signal stops every unit in the
live-units set, leaves the set empty, and resets the next-start cursor to 0;
an audio chunk processed afterwards is scheduled at the current output clock
time, not at the pre-interruption cursor value. -/
theorem C2_interrupt_flush (s : SessionState) (now now' d : ℚ) (ts ts' : Nat)
    (hctx : s.outputAudioContextOpen = true) (hnow : 0 ≤ now') :
    (onmessage s interruptMsg now ts).scheduledSources = [] ∧
    (onmessage s interruptMsg now ts).nextStartTime = 0 ∧
    (∀ u ∈ s.scheduledSources, u ∈ (onmessage s interruptMsg now ts).stopLog) ∧
    (onmessage (onmessage s interruptMsg now ts)
        (audioMsg (AudioChunk.ok d)) now' ts').scheduledSources =
      [{ startAt := now', duration := d }] := by
  rw [onmessage_interrupt]
  refine ⟨rfl, rfl, ?_, ?_⟩
  · intro u hu
    simp [hu]
  · rw [onmessage_audio_ok _ _ _ _ (by simp [hctx])]
    simp [max_eq_right hnow]

/-- Witness for C2 at a concrete state and clock values. -/
theorem C2_witness :
    (onmessage connectedState interruptMsg 4 0).scheduledSources = [] ∧
    (onmessage connectedState interruptMsg 4 0).nextStartTime = 0 ∧
    (∀ u ∈ connectedState.scheduledSources,
       u ∈ (onmessage connectedState interruptMsg 4 0).stopLog) ∧
    (onmessage (onmessage connectedState interruptMsg 4 0)
        (audioMsg (AudioChunk.ok 2)) 6 0).scheduledSources =
      [{ startAt := 6, duration := 2 }] :=
  C2_interrupt_flush connectedState 4 6 2 0 0 (by decide) (by decide)

/-- Claim C3: at a turn-complete event, with trimmed user accumulator empty
and trimmed remote accumulator "Hello", exactly one item {role ai, "Hello"}
is appended; with both trimmed accumulators empty nothing is appended; with
both non-empty the user item precedes the ai item, both stamped with the
commit timestamp; and both accumulators are empty after every turn-complete.
(The remote speaker is tagged Role.ai, matching the tag used in the code.) -/
theorem C3_turn_commit (s : SessionState) (ts : Nat) :
    (jsTrim s.currentInput = "" → jsTrim s.currentOutput = "Hello" →
      (onmessage s turnCompleteMsg 0 ts).transcript =
        s.transcript ++ [{ role := Role.ai, text := "Hello", timestamp := ts }]) ∧
    (jsTrim s.currentInput = "" → jsTrim s.currentOutput = "" →
      (onmessage s turnCompleteMsg 0 ts).transcript = s.transcript) ∧
    (jsTrim s.currentInput ≠ "" → jsTrim s.currentOutput ≠ "" →
      (onmessage s turnCompleteMsg 0 ts).transcript = s.transcript ++
        [{ role := Role.user, text := jsTrim s.currentInput, timestamp := ts },
         { role := Role.ai, text := jsTrim s.currentOutput, timestamp := ts }]) ∧
    (onmessage s turnCompleteMsg 0 ts).currentInput = "" ∧
    (onmessage s turnCompleteMsg 0 ts).currentOutput = "" := by
  rw [onmessage_turnComplete]
  refine ⟨?_, ?_, ?_, ?_, ?_⟩
  · intro h1 h2
    simp [handleTurnComplete, h1, h2]
  · intro h1 h2
    simp [handleTurnComplete, h1, h2]
  · intro h1 h2
    simp [handleTurnComplete, h1, h2]
  · simp [handleTurnComplete]
  · simp [handleTurnComplete]

/-- Witness for C3 at a concrete accumulator state. -/
theorem C3_witness :
    (onmessage { initialState with currentOutput := "Hello" }
        turnCompleteMsg 0 7).transcript =
      ({ initialState with currentOutput := "Hello" } : SessionState).transcript
        ++ [{ role := Role.ai, text := "Hello", timestamp := 7 }] ∧
    (onmessage { initialState with currentOutput := "Hello" }
        turnCompleteMsg 0 7).currentInput = "" ∧
    (onmessage { initialState with currentOutput := "Hello" }
        turnCompleteMsg 0 7).currentOutput = "" :=
  ⟨(C3_turn_commit { initialState with currentOutput := "Hello" } 7).1
      (by decide) (by decide),
   (C3_turn_commit { initialState with currentOutput := "Hello" } 7).2.2.2.1,
   (C3_turn_commit { initialState with currentOutput := "Hello" } 7).2.2.2.2⟩

/-- Claim C4: a session-close event never moves the connection state away
from DISCONNECTED (so a close arriving after an explicit disconnect() is a
no-op), and it changes the state — always to DISCONNECTED — only when the
state at arrival is still CONNECTING or CONNECTED. -/
theorem C4_close_race (s : SessionState) :
    (s.connectionState = ConnectionState.DISCONNECTED →
      (onclose s).connectionState = ConnectionState.DISCONNECTED) ∧
    ((onclose s).connectionState ≠ s.connectionState →
      (s.connectionState = ConnectionState.CONNECTING ∨
       s.connectionState = ConnectionState.CONNECTED) ∧
      (onclose s).connectionState = ConnectionState.DISCONNECTED) := by
  cases h : s.connectionState <;> simp [onclose, h]

/-- Witness for C4: a close event arriving in the already-disconnected
state after disconnect() leaves the state DISCONNECTED. -/
theorem C4_witness :
    (onclose (disconnect connectedState)).connectionState =
      ConnectionState.DISCONNECTED :=
  (C4_close_race (disconnect connectedState)).1 rfl

/-- Claim C5: connect() called while the state is CONNECTING or CONNECTED
returns the state unchanged — no field is modified and no additional remote
session is opened (sessionsOpened is unchanged). -/
theorem C5_connect_guard (s : SessionState) (env : ConnectEnv)
    (h : s.connectionState = ConnectionState.CONNECTING ∨
         s.connectionState = ConnectionState.CONNECTED) :
    connect s env = s ∧
    (connect s env).sessionsOpened = s.sessionsOpened := by
  have hg : connect s env = s := by
    rcases h with h | h <;> simp [connect, h]
  exact ⟨hg, by rw [hg]⟩

/-- Witness for C5 in the connected state. -/
theorem C5_witness :
    connect connectedState okEnv = connectedState ∧
    (connect connectedState okEnv).sessionsOpened =
      connectedState.sessionsOpened :=
  C5_connect_guard connectedState okEnv (Or.inr (by decide))

/-- Claim C6: disconnect() from any starting state (including the initial
state and a state just after a previous disconnect) is total, leaves the
state DISCONNECTED with an empty live-units set, cursor 0 and both volume
readouts 0, and calling it twice gives the same final state as once. -/
theorem C6_disconnect_idempotent (s : SessionState) :
    (disconnect s).connectionState = ConnectionState.DISCONNECTED ∧
    (disconnect s).scheduledSources = [] ∧
    (disconnect s).nextStartTime = 0 ∧
    (disconnect s).volume = 0 ∧
    (disconnect s).aiVolume = 0 ∧
    disconnect (disconnect s) = disconnect s := by
  refine ⟨rfl, rfl, rfl, rfl, rfl, ?_⟩
  simp [disconnect]

/-- Claim C7: a chunk whose payload fails to decode is dropped: the handler
stays total, the connection state, session, error, transcript and live-units
set are unchanged, and any later audio chunk (the output clock having moved
forward) is scheduled exactly as it would have been had the failed chunk
never arrived. -/
theorem C7_decode_failure (s : SessionState) (now now' d : ℚ) (ts ts' : Nat)
    (h : now ≤ now') :
    (onmessage s badAudioMsg now ts).connectionState = s.connectionState ∧
    (onmessage s badAudioMsg now ts).scheduledSources = s.scheduledSources ∧
    (onmessage s badAudioMsg now ts).sessionLive = s.sessionLive ∧
    (onmessage s badAudioMsg now ts).error = s.error ∧
    (onmessage s badAudioMsg now ts).transcript = s.transcript ∧
    onmessage (onmessage s badAudioMsg now ts)
        (audioMsg (AudioChunk.ok d)) now' ts' =
      onmessage s (audioMsg (AudioChunk.ok d)) now' ts' := by
  rw [onmessage_audio_malformed]
  by_cases hctx : s.outputAudioContextOpen = true
  · rw [if_pos hctx]
    refine ⟨rfl, rfl, rfl, rfl, rfl, ?_⟩
    have hctx2 : (({ s with nextStartTime := max s.nextStartTime now }
        : SessionState)).outputAudioContextOpen = true := hctx
    rw [onmessage_audio_ok _ _ _ _ hctx2, onmessage_audio_ok _ _ _ _ hctx]
    have key : max (max s.nextStartTime now) now' = max s.nextStartTime now' := by
      rw [max_assoc, max_eq_right h]
    simp [key]
  · rw [if_neg hctx]
    exact ⟨rfl, rfl, rfl, rfl, rfl, rfl⟩

/-- Witness for C7 at a concrete state and clock values. -/
theorem C7_witness :
    (onmessage connectedState badAudioMsg 1 0).connectionState =
      connectedState.connectionState ∧
    (onmessage connectedState badAudioMsg 1 0).scheduledSources =
      connectedState.scheduledSources ∧
    (onmessage connectedState badAudioMsg 1 0).sessionLive =
      connectedState.sessionLive ∧
    (onmessage connectedState badAudioMsg 1 0).error = connectedState.error ∧
    (onmessage connectedState badAudioMsg 1 0).transcript =
      connectedState.transcript ∧
    onmessage (onmessage connectedState badAudioMsg 1 0)
        (audioMsg (AudioChunk.ok 3)) 2 0 =
      onmessage connectedState (audioMsg (AudioChunk.ok 3)) 2 0 :=
  C7_decode_failure connectedState 1 2 3 0 0 (by decide)

/-- A connect environment in which device acquisition (getUserMedia) is
denied. -/
def mediaFailEnv : ConnectEnv :=
  { apiKeyPresent := true, mediaOk := false, mediaErr := "Permission denied",
    sessionOk := true, sessionErr := "" }

/-- A connect environment in which the remote session open fails. -/
def sessionFailEnv : ConnectEnv :=
  { apiKeyPresent := true, mediaOk := true, mediaErr := "",
    sessionOk := false, sessionErr := "network down" }

/-- Counterexample to claim C8: when device acquisition fails during
connect() from the fresh state, the Error state and message are surfaced
while the two audio contexts and the aiVolume polling interval acquired
during this very connect are still held — not every partially acquired
handle is released. -/
theorem C8_counterexample :
    (connect initialState mediaFailEnv).connectionState =
      ConnectionState.ERROR ∧
    (connect initialState mediaFailEnv).error = some "Permission denied" ∧
    (connect initialState mediaFailEnv).inputAudioContextOpen = true ∧
    (connect initialState mediaFailEnv).outputAudioContextOpen = true ∧
    (connect initialState mediaFailEnv).aiVolumeIntervalActive = true := by
  decide

/-- Claim C8 (amended): when device acquisition or session open fails during
a non-guarded connect(), the error message and Error state are surfaced and
only the already-acquired media stream tracks are stopped; the audio
contexts and the volume-polling interval started during this connect remain
held by the failure path.  On a device-acquisition failure no stream was
acquired by this connect, so the catch block stops tracks only if a stale
stream ref was already set; on a session-open failure the freshly acquired
stream keeps its ref while its tracks are stopped. -/
theorem C8_amended_partial_release (s : SessionState) (env : ConnectEnv)
    (hguard : s.connectionState ≠ ConnectionState.CONNECTING)
    (hguard2 : s.connectionState ≠ ConnectionState.CONNECTED)
    (hkey : env.apiKeyPresent = true) :
    (env.mediaOk = false → env.mediaErr ≠ "" →
      (connect s env).connectionState = ConnectionState.ERROR ∧
      (connect s env).error = some env.mediaErr ∧
      (connect s env).inputAudioContextOpen = true ∧
      (connect s env).outputAudioContextOpen = true ∧
      (connect s env).aiVolumeIntervalActive = true ∧
      (connect s env).mediaStreamRef = s.mediaStreamRef ∧
      (connect s env).mediaTracksLive =
        (if s.mediaStreamRef = true then false else s.mediaTracksLive)) ∧
    (env.mediaOk = true → env.sessionOk = false → env.sessionErr ≠ "" →
      (connect s env).connectionState = ConnectionState.ERROR ∧
      (connect s env).error = some env.sessionErr ∧
      (connect s env).mediaTracksLive = false ∧
      (connect s env).mediaStreamRef = true ∧
      (connect s env).inputAudioContextOpen = true ∧
      (connect s env).outputAudioContextOpen = true ∧
      (connect s env).aiVolumeIntervalActive = true) := by
  constructor
  · intro hmedia hmsg
    by_cases href : s.mediaStreamRef = true <;>
      simp [connect, hguard, hguard2, hkey, hmedia, connectFail, hmsg, href]
  · intro hmedia hsession hmsg
    simp [connect, hguard, hguard2, hkey, hmedia, hsession, connectFail, hmsg]

/-- Witness for the amended C8 at concrete failing environments, one for
each failure point: device acquisition denied, and session open failed. -/
theorem C8_witness :
    ((connect initialState mediaFailEnv).connectionState =
       ConnectionState.ERROR ∧
     (connect initialState mediaFailEnv).error = some "Permission denied" ∧
     (connect initialState mediaFailEnv).inputAudioContextOpen = true ∧
     (connect initialState mediaFailEnv).outputAudioContextOpen = true ∧
     (connect initialState mediaFailEnv).aiVolumeIntervalActive = true ∧
     (connect initialState mediaFailEnv).mediaStreamRef =
       initialState.mediaStreamRef ∧
     (connect initialState mediaFailEnv).mediaTracksLive =
       (if initialState.mediaStreamRef = true then false
        else initialState.mediaTracksLive)) ∧
    ((connect initialState sessionFailEnv).connectionState =
       ConnectionState.ERROR ∧
     (connect initialState sessionFailEnv).error = some "network down" ∧
     (connect initialState sessionFailEnv).mediaTracksLive = false ∧
     (connect initialState sessionFailEnv).mediaStreamRef = true ∧
     (connect initialState sessionFailEnv).inputAudioContextOpen = true ∧
     (connect initialState sessionFailEnv).outputAudioContextOpen = true ∧
     (connect initialState sessionFailEnv).aiVolumeIntervalActive = true) :=
  ⟨(C8_amended_partial_release initialState mediaFailEnv (by decide)
      (by decide) (by decide)).1 (by decide) (by decide),
   (C8_amended_partial_release initialState sessionFailEnv (by decide)
      (by decide) (by decide)).2 (by decide) (by decide) (by decide)⟩

/-- Claim C9: a single message carrying both an audio chunk and the
interrupted flag schedules the chunk first (it is appended to the schedule
history at max(cursor, now)) and flushes afterwards: the live-units set ends
empty, the cursor ends at 0, and the very unit just scheduled is among the
stopped units. -/
theorem C9_audio_with_interrupt (s : SessionState) (d now : ℚ) (ts : Nat)
    (hctx : s.outputAudioContextOpen = true) :
    (onmessage s (audioAndInterruptMsg d) now ts).scheduledSources = [] ∧
    (onmessage s (audioAndInterruptMsg d) now ts).nextStartTime = 0 ∧
    (onmessage s (audioAndInterruptMsg d) now ts).scheduleLog =
      s.scheduleLog ++ [{ startAt := max s.nextStartTime now, duration := d }] ∧
    ({ startAt := max s.nextStartTime now, duration := d } : PlaybackUnit) ∈
      (onmessage s (audioAndInterruptMsg d) now ts).stopLog := by
  simp [onmessage, audioAndInterruptMsg, handleAudio, handleInterrupt,
    handleTranscription, handleTurnComplete, hctx]

/-- Witness for C9 at a concrete state. -/
theorem C9_witness :
    (onmessage connectedState (audioAndInterruptMsg 2) 3 0).scheduledSources
      = [] ∧
    (onmessage connectedState (audioAndInterruptMsg 2) 3 0).nextStartTime
      = 0 ∧
    (onmessage connectedState (audioAndInterruptMsg 2) 3 0).scheduleLog =
      connectedState.scheduleLog ++
        [{ startAt := max connectedState.nextStartTime 3, duration := 2 }] ∧
    ({ startAt := max connectedState.nextStartTime 3, duration := 2 }
        : PlaybackUnit) ∈
      (onmessage connectedState (audioAndInterruptMsg 2) 3 0).stopLog :=
  C9_audio_with_interrupt connectedState 2 3 0 (by decide)

theorem handleAudio_error (s : SessionState) (c : Option AudioChunk)
    (now : ℚ) : (handleAudio s c now).error = s.error := by
  cases c with
  | none => rfl
  | some a =>
    cases a <;> by_cases h : s.outputAudioContextOpen = true <;>
      simp [handleAudio, h]

theorem handleInterrupt_error (s : SessionState) (flag : Bool) :
    (handleInterrupt s flag).error = s.error := by
  cases flag <;> simp [handleInterrupt]

theorem handleTranscription_error (s : SessionState) (inp outp : Option String) :
    (handleTranscription s inp outp).error = s.error := by
  cases inp <;> cases outp <;> simp [handleTranscription]

theorem handleTurnComplete_error (s : SessionState) (flag : Bool) (ts : Nat) :
    (handleTurnComplete s flag ts).error = s.error := by
  cases flag with
  | false => rfl
  | true =>
    by_cases h : jsTrim s.currentInput ≠ "" ∨ jsTrim s.currentOutput ≠ "" <;>
      simp [handleTurnComplete, h]

theorem onmessage_error (s : SessionState) (msg : ServerMessage) (now : ℚ)
    (ts : Nat) : (onmessage s msg now ts).error = s.error := by
  rw [onmessage, handleTurnComplete_error, handleTranscription_error,
    handleInterrupt_error, handleAudio_error]

/-- Claim C10: teardown and inbound events never modify the surfaced error:
for every state — without restriction on the connection state — disconnect(),
a close event and any inbound message leave the error field unchanged (still
observable), while a subsequent non-guarded connect() (here with a
succeeding environment) resets it to null. -/
theorem C10_error_frame (s : SessionState) (msg : ServerMessage) (now : ℚ)
    (ts : Nat) :
    (disconnect s).error = s.error ∧
    (onclose s).error = s.error ∧
    (onmessage s msg now ts).error = s.error ∧
    (s.connectionState ≠ ConnectionState.CONNECTING →
     s.connectionState ≠ ConnectionState.CONNECTED →
      (connect s okEnv).error = none) := by
  refine ⟨rfl, rfl, onmessage_error s msg now ts, fun h1 h2 => ?_⟩
  simp [connect, h1, h2, okEnv]

/-- Witness for C10: a state carrying a surfaced error, after disconnect. -/
theorem C10_witness :
    (disconnect (onerror initialState (some "boom"))).error = some "boom" ∧
    (onclose (onerror initialState (some "boom"))).error = some "boom" ∧
    (onmessage (onerror initialState (some "boom"))
        turnCompleteMsg 0 0).error = some "boom" ∧
    (connect (onerror initialState (some "boom")) okEnv).error = none :=
  ⟨(C10_error_frame (onerror initialState (some "boom"))
      turnCompleteMsg 0 0).1,
   (C10_error_frame (onerror initialState (some "boom"))
      turnCompleteMsg 0 0).2.1,
   (C10_error_frame (onerror initialState (some "boom"))
      turnCompleteMsg 0 0).2.2.1,
   (C10_error_frame (onerror initialState (some "boom"))
      turnCompleteMsg 0 0).2.2.2 (by decide) (by decide)⟩
